import Mathlib

/-!
Shallow embedding of the cragcrowd-api sensor-data service
(src/routes/sensorData.ts, src/middleware/validation.ts, src/routes/health.ts).

Conventions of the embedding:
* JSON scalar values are modelled by `JVal`; a request body / persisted
  document is an association list `List (String × JVal)` (JS object keys are
  unique; lookup takes the first occurrence).
* JS numbers are modelled by `Rat` (every JSON numeric literal is rational);
  the zod `.int()` check is `Rat.isInt`.
* Datetimes (`new Date(...)`, `server_timestamp`, `created_at`) are modelled
  as `Int` milliseconds since the epoch; the validated `start_time` /
  `end_time` query strings are carried as their parsed instants.
* The MongoDB reading log is a `List StoredReading` in insertion order;
  `insertOne` appends, `find` filters / sorts / limits, `aggregate` for the
  walls view is modelled by `wallsAggregate`.
* Fallible driver calls (`insertOne`, `find`, `aggregate`, `ping`) are given
  their outcome as an explicit `Except String _` argument whose `error` case
  carries the driver error message.
-/

namespace CragCrowd

/-- A scalar JSON value as sent over the wire. -/
inductive JVal where
  | str : String → JVal
  | num : Rat → JVal
  | bool : Bool → JVal
  | null : JVal
deriving DecidableEq, Repr

/-- One zod issue: field path plus human-readable reason
(`error.errors` entries surfaced as the 400 response `details`). -/
structure FieldIssue where
  path : String
  message : String
deriving DecidableEq, Repr

/-- First-occurrence key lookup in a JSON object (JS object semantics). -/
def lookupField (body : List (String × JVal)) (k : String) : Option JVal :=
  (body.find? (fun kv => kv.1 = k)).map (fun kv => kv.2)

/-- The normalized output of `sensorDataSchema.parse`: exactly the declared
fields, optional ones as `Option`. -/
structure ValidReading where
  wall_id : String
  device_count : Int
  timestamp : Int
  gateway_id : Option String
  rssi : Option Rat
  snr : Option Rat
  received_at : Option Int
deriving DecidableEq, Repr

/-- Issues of `wall_id: z.string().min(1)`. -/
def wallIdIssues : Option JVal → List FieldIssue
  | some (JVal.str s) =>
      if 1 ≤ s.length then [] else
        [⟨"wall_id", "String must contain at least 1 character"⟩]
  | some _ => [⟨"wall_id", "Expected string"⟩]
  | none => [⟨"wall_id", "Required"⟩]

/-- Issues of `device_count: z.number().int().min(0)` (zod runs every check
on the field and reports all of them). -/
def deviceCountIssues : Option JVal → List FieldIssue
  | some (JVal.num n) =>
      (if n.isInt then [] else
        [⟨"device_count", "Expected integer, received float"⟩]) ++
      (if 0 ≤ n then [] else
        [⟨"device_count", "Number must be greater than or equal to 0"⟩])
  | some _ => [⟨"device_count", "Expected number"⟩]
  | none => [⟨"device_count", "Required"⟩]

/-- Issues of `timestamp: z.number().int().positive()`. -/
def timestampIssues : Option JVal → List FieldIssue
  | some (JVal.num n) =>
      (if n.isInt then [] else
        [⟨"timestamp", "Expected integer, received float"⟩]) ++
      (if 0 < n then [] else
        [⟨"timestamp", "Number must be greater than 0"⟩])
  | some _ => [⟨"timestamp", "Expected number"⟩]
  | none => [⟨"timestamp", "Required"⟩]

/-- Issues of an optional plain-string field (`gateway_id`). -/
def optStringIssues (path : String) : Option JVal → List FieldIssue
  | some (JVal.str _) => []
  | some _ => [⟨path, "Expected string"⟩]
  | none => []

/-- Issues of an optional plain-number field (`rssi`, `snr`). -/
def optNumberIssues (path : String) : Option JVal → List FieldIssue
  | some (JVal.num _) => []
  | some _ => [⟨path, "Expected number"⟩]
  | none => []

/-- Issues of `received_at: z.number().int().positive().optional()`. -/
def receivedAtIssues : Option JVal → List FieldIssue
  | some (JVal.num n) =>
      (if n.isInt then [] else
        [⟨"received_at", "Expected integer, received float"⟩]) ++
      (if 0 < n then [] else
        [⟨"received_at", "Number must be greater than 0"⟩])
  | some _ => [⟨"received_at", "Expected number"⟩]
  | none => []

/-- All issues `sensorDataSchema.parse` reports on a body. -/
def readingIssues (body : List (String × JVal)) : List FieldIssue :=
  wallIdIssues (lookupField body "wall_id") ++
  deviceCountIssues (lookupField body "device_count") ++
  timestampIssues (lookupField body "timestamp") ++
  optStringIssues "gateway_id" (lookupField body "gateway_id") ++
  optNumberIssues "rssi" (lookupField body "rssi") ++
  optNumberIssues "snr" (lookupField body "snr") ++
  receivedAtIssues (lookupField body "received_at")

/-- Field extraction used on the success path (each value is exactly the
looked-up wire value; the fallbacks are unreachable when `readingIssues` is
empty). Unrecognized keys of `body` are not consulted: this is zod stripping
unknown keys. -/
def extractReading (body : List (String × JVal)) : ValidReading :=
  { wall_id := match lookupField body "wall_id" with
      | some (JVal.str s) => s
      | _ => ""
    device_count := match lookupField body "device_count" with
      | some (JVal.num n) => n.num
      | _ => 0
    timestamp := match lookupField body "timestamp" with
      | some (JVal.num n) => n.num
      | _ => 0
    gateway_id := match lookupField body "gateway_id" with
      | some (JVal.str s) => some s
      | _ => none
    rssi := match lookupField body "rssi" with
      | some (JVal.num n) => some n
      | _ => none
    snr := match lookupField body "snr" with
      | some (JVal.num n) => some n
      | _ => none
    received_at := match lookupField body "received_at" with
      | some (JVal.num n) => some n.num
      | _ => none }

/-- `sensorDataSchema.parse`: succeeds with the normalized record iff no
field check fails, otherwise throws the full issue list (`ZodError`). -/
def parseReading (body : List (String × JVal)) :
    Except (List FieldIssue) ValidReading :=
  if readingIssues body = [] then Except.ok (extractReading body)
  else Except.error (readingIssues body)

/-- A persisted `sensor_readings` document: the normalized reading plus the
two system stamps added by the POST handler. -/
structure StoredReading where
  wall_id : String
  device_count : Int
  timestamp : Int
  gateway_id : Option String
  rssi : Option Rat
  snr : Option Rat
  received_at : Option Int
  server_timestamp : Int
  created_at : Int
deriving DecidableEq, Repr

/-- `{ ...sensorData, server_timestamp: new Date(), created_at: new Date() }`:
spread of the validated data. The two stamps come from two separate
`new Date()` calls made during the same insertion; they are modelled as the
two independent instants `now1` (first call, `server_timestamp`) and `now2`
(second call, `created_at`), since nothing in the code keeps the clock from
ticking between the calls. -/
def stampReading (v : ValidReading) (now1 now2 : Int) : StoredReading :=
  { wall_id := v.wall_id
    device_count := v.device_count
    timestamp := v.timestamp
    gateway_id := v.gateway_id
    rssi := v.rssi
    snr := v.snr
    received_at := v.received_at
    server_timestamp := now1
    created_at := now2 }

/-- An optional document field: present exactly when the value is. -/
def optField (k : String) : Option JVal → List (String × JVal)
  | some v => [(k, v)]
  | none => []

/-- The key-value layout of a persisted document (optional fields appear only
when present; datetimes serialized as their epoch instants). -/
def storedDoc (r : StoredReading) : List (String × JVal) :=
  [("wall_id", JVal.str r.wall_id),
   ("device_count", JVal.num (r.device_count : Rat)),
   ("timestamp", JVal.num (r.timestamp : Rat))] ++
  optField "gateway_id" (r.gateway_id.map JVal.str) ++
  optField "rssi" (r.rssi.map JVal.num) ++
  optField "snr" (r.snr.map JVal.num) ++
  optField "received_at" (r.received_at.map (fun x => JVal.num (x : Rat))) ++
  [("server_timestamp", JVal.num (r.server_timestamp : Rat)),
   ("created_at", JVal.num (r.created_at : Rat))]

/-- Body of a 500-style failure response: `{ success: false, error: msg }`. -/
structure ErrorBody where
  success : Bool
  error : String
deriving DecidableEq, Repr

/-- Response of `POST /api/sensor-data`. -/
inductive PostResp where
  | created (id : Nat)
  | badRequest (details : List FieldIssue)
  | storageError (body : ErrorBody)
deriving DecidableEq, Repr

/-- HTTP status of a `PostResp`. -/
def PostResp.status : PostResp → Nat
  | PostResp.created _ => 201
  | PostResp.badRequest _ => 400
  | PostResp.storageError _ => 500

/-- `POST /api/sensor-data`: `validateRequest(sensorDataSchema)` followed by
the handler. On a `ZodError` the middleware answers 400 with the issue list
and the handler never runs; otherwise the handler stamps the validated data
(its two `new Date()` calls returning the instants `now1` and `now2`) and
appends it via `insertOne` (whose outcome `ins` carries the new id or the
driver error message). Returns the response and the resulting log. -/
def postSensorData (body : List (String × JVal)) (now1 now2 : Int)
    (ins : Except String Nat) (log : List StoredReading) :
    PostResp × List StoredReading :=
  match parseReading body with
  | Except.error issues => (PostResp.badRequest issues, log)
  | Except.ok v =>
    match ins with
    | Except.ok id => (PostResp.created id, log ++ [stampReading v now1 now2])
    | Except.error _ =>
        (PostResp.storageError ⟨false, "Failed to save sensor data"⟩, log)

/-- Numeric value of a list of decimal digit characters. -/
def digitsToNat (ds : List Char) : Nat :=
  ds.foldl (fun a c => a * 10 + (c.toNat - 48)) 0

/-- JS `parseInt(s, 10)`: skip leading whitespace, optional sign, then the
longest run of decimal digits; `none` models `NaN` (no digits found).
Trailing non-digit characters are ignored. -/
def jsParseInt (s : String) : Option Int :=
  let cs := s.data.dropWhile Char.isWhitespace
  let signed : Int × List Char :=
    match cs with
    | '-' :: r => (-1, r)
    | '+' :: r => (1, r)
    | _ => (1, cs)
  let ds := signed.2.takeWhile Char.isDigit
  if ds.isEmpty then none else some (signed.1 * (digitsToNat ds : Int))

/-- The `limit` field of `querySensorDataSchema`:
`z.string().transform(v => parseInt(v, 10)).pipe(z.number().int().min(1).max(1000)).optional()`.
Result `none` is a validation failure; `some none` is a valid absent limit;
`some (some n)` is a valid present limit. (`parseInt` always yields an
integer when it yields anything, so `.int()` only rules out `NaN`.) -/
def parseLimitField : Option String → Option (Option Int)
  | none => some none
  | some s =>
    match jsParseInt s with
    | none => none
    | some n => if 1 ≤ n ∧ n ≤ 1000 then some (some n) else none

/-- Modelled from the spec wording: whether a string is a decimal integer
numeral in its entirety (optional sign followed by digits only). Used only
to compare the implemented limit validation against the reading of
"parses as an integer" in which the whole string must be the integer. -/
def decimalIntString (s : String) : Bool :=
  match s.data with
  | [] => false
  | c :: cs =>
    let ds := if c = '-' ∨ c = '+' then cs else c :: cs
    !ds.isEmpty && ds.all Char.isDigit

/-- The normalized output of `querySensorDataSchema.parse` as consumed by the
GET handler: `start_time` / `end_time` are carried as the instants their
validated ISO-8601 strings denote (the handler converts them with
`new Date(...)`; a validated datetime string is nonempty, hence truthy). -/
structure ValidQuery where
  wall_id : Option String
  start_time : Option Int
  end_time : Option Int
  limit : Option Int
deriving DecidableEq, Repr

/-- The MongoDB filter document the GET handler builds: an optional equality
constraint on `wall_id` and optional `$gte` / `$lte` bounds on
`server_timestamp`. -/
structure MongoFilter where
  wall_id : Option String
  ts_gte : Option Int
  ts_lte : Option Int
deriving DecidableEq, Repr

/-- Query construction of the GET handler. `if (wall_id)` tests JS
truthiness, so a present-but-empty `wall_id` string adds no constraint;
`start_time` / `end_time`, being validated nonempty strings, contribute
their bound exactly when present. -/
def buildQuery (q : ValidQuery) : MongoFilter :=
  { wall_id := match q.wall_id with
      | some s => if s = "" then none else some s
      | none => none
    ts_gte := q.start_time
    ts_lte := q.end_time }

/-- Whether a stored reading matches a filter (conjunction of the present
constraints; an empty filter matches everything). -/
def matchesFilter (f : MongoFilter) (r : StoredReading) : Bool :=
  (match f.wall_id with
    | some w => r.wall_id == w
    | none => true) &&
  (match f.ts_gte with
    | some a => decide (a ≤ r.server_timestamp)
    | none => true) &&
  (match f.ts_lte with
    | some b => decide (r.server_timestamp ≤ b)
    | none => true)

/-- Stable insertion of `x` into a list sorted descending by `key`: `x` goes
before the first element with a strictly smaller key. -/
def insertKeyDesc (key : α → Int) (x : α) : List α → List α
  | [] => [x]
  | y :: ys => if key y < key x then x :: y :: ys else y :: insertKeyDesc key x ys

/-- Stable sort, descending by `key` (models Mongo `$sort: {k: -1}`). -/
def sortByKeyDesc (key : α → Int) : List α → List α
  | [] => []
  | x :: xs => insertKeyDesc key x (sortByKeyDesc key xs)

/-- `find(query).sort({server_timestamp: -1}).limit(lim).toArray()` over the
insertion-ordered log, with the driver semantics of `cursor.limit`:
`limit(0)` means no limit at all, and a negative limit returns up to `|n|`
documents (it only additionally closes the cursor). -/
def executeFind (log : List StoredReading) (f : MongoFilter) (lim : Int) :
    List StoredReading :=
  if lim = 0 then
    sortByKeyDesc (fun r => r.server_timestamp)
      (log.filter (fun r => matchesFilter f r))
  else
    (sortByKeyDesc (fun r => r.server_timestamp)
      (log.filter (fun r => matchesFilter f r))).take lim.natAbs

/-- The destructuring default `limit = 100` of the GET handler; no other
bounding of the limit happens in the handler. -/
def effLimit (l : Option Int) : Int := l.getD 100

/-- The GET handler's data result after validation: build the query from the
normalized parameters, execute it with the effective limit. -/
def getSensorData (q : ValidQuery) (log : List StoredReading) :
    List StoredReading :=
  executeFind log (buildQuery q) (effLimit q.limit)

/-- One row of the walls summary aggregation. -/
structure WallRow where
  wall_id : String
  latest_reading : Int
  device_count : Int
deriving DecidableEq, Repr

/-- The readings of one wall in insertion order. -/
def wallReadings (log : List StoredReading) (w : String) : List StoredReading :=
  log.filter (fun r => r.wall_id == w)

/-- Maximum over a list of instants (`$max`); `none` on an empty group. -/
def maxInstant : List Int → Option Int
  | [] => none
  | t :: ts =>
    some (match maxInstant ts with
      | none => t
      | some m => max t m)

/-- The `$group` stage output for one wall: `latest_reading` is
`{$max: server_timestamp}`, `device_count` is `{$last: device_count}` in
insertion (natural) order. The fallbacks are unreachable when the wall
occurs in the log. -/
def wallRow (log : List StoredReading) (w : String) : WallRow :=
  { wall_id := w
    latest_reading :=
      (maxInstant ((wallReadings log w).map
        (fun r => r.server_timestamp))).getD 0
    device_count :=
      (((wallReadings log w).getLast?).map
        (fun r => r.device_count)).getD 0 }

/-- `GET /api/sensor-data/walls` aggregation: group by `wall_id`, project,
then `$sort: {latest_reading: -1}`. -/
def wallsAggregate (log : List StoredReading) : List WallRow :=
  sortByKeyDesc (fun row => row.latest_reading)
    (((log.map (fun r => r.wall_id)).dedup).map (wallRow log))

/-- Body of the GET handlers' 500 response (fixed messages). -/
def queryFailureBody : ErrorBody := ⟨false, "Failed to query sensor data"⟩

/-- Body of the walls handler's 500 response. -/
def wallsFailureBody : ErrorBody := ⟨false, "Failed to get walls data"⟩

/-- Response of `GET /api/sensor-data` with the driver outcome explicit:
on any driver failure the handler answers 500 with the fixed message. -/
def getSensorDataResp (q : ValidQuery) (log : List StoredReading)
    (drv : Except String Unit) : Except ErrorBody (List StoredReading) :=
  match drv with
  | Except.ok _ => Except.ok (getSensorData q log)
  | Except.error _ => Except.error queryFailureBody

/-- Response of `GET /api/sensor-data/walls` with the driver outcome
explicit. -/
def getWallsResp (log : List StoredReading) (drv : Except String Unit) :
    Except ErrorBody (List WallRow) :=
  match drv with
  | Except.ok _ => Except.ok (wallsAggregate log)
  | Except.error _ => Except.error wallsFailureBody

/-- Body of a `/api/health` response. The unhealthy branch forwards
`error instanceof Error ? error.message : ...` — the underlying driver
message — verbatim in its `error` field. -/
structure HealthBody where
  status : String
  database : String
  error : Option String
deriving DecidableEq, Repr

/-- `GET /api/health`: 200 when the database ping succeeds, 503 carrying the
ping error message otherwise. (The runtime-dependent `timestamp` and
`uptime` fields are omitted from the model.) -/
def healthHandler (ping : Except String Unit) : Nat × HealthBody :=
  match ping with
  | Except.ok _ => (200, ⟨"healthy", "connected", none⟩)
  | Except.error e => (503, ⟨"unhealthy", "disconnected", some e⟩)

/-! Supporting lemmas about the embedded operations. -/

theorem insertKeyDesc_perm (key : α → Int) (x : α) (l : List α) :
    (insertKeyDesc key x l).Perm (x :: l) := by
  induction l with
  | nil => exact List.Perm.refl _
  | cons y ys ih =>
    simp only [insertKeyDesc]
    split
    · exact List.Perm.refl _
    · exact (List.Perm.cons y ih).trans (List.Perm.swap x y ys)

theorem sortByKeyDesc_perm (key : α → Int) (l : List α) :
    (sortByKeyDesc key l).Perm l := by
  induction l with
  | nil => exact List.Perm.refl _
  | cons x xs ih =>
    exact (insertKeyDesc_perm key x (sortByKeyDesc key xs)).trans
      (List.Perm.cons x ih)

theorem mem_sortByKeyDesc (key : α → Int) (l : List α) (a : α) :
    a ∈ sortByKeyDesc key l ↔ a ∈ l :=
  (sortByKeyDesc_perm key l).mem_iff

theorem length_sortByKeyDesc (key : α → Int) (l : List α) :
    (sortByKeyDesc key l).length = l.length :=
  (sortByKeyDesc_perm key l).length_eq

theorem pairwise_insertKeyDesc (key : α → Int) (x : α) (l : List α)
    (h : l.Pairwise (fun a b => key b ≤ key a)) :
    (insertKeyDesc key x l).Pairwise (fun a b => key b ≤ key a) := by
  induction l with
  | nil => simp [insertKeyDesc]
  | cons y ys ih =>
    rcases List.pairwise_cons.mp h with ⟨hy, hys⟩
    simp only [insertKeyDesc]
    split
    · rename_i hlt
      refine List.pairwise_cons.mpr ⟨?_, h⟩
      intro b hb
      rcases List.mem_cons.mp hb with hb | hb
      · exact hb ▸ le_of_lt hlt
      · exact le_trans (hy b hb) (le_of_lt hlt)
    · rename_i hnlt
      refine List.pairwise_cons.mpr ⟨?_, ih hys⟩
      intro b hb
      rcases List.mem_cons.mp ((insertKeyDesc_perm key x ys).mem_iff.mp hb) with hb | hb
      · exact hb ▸ le_of_not_lt hnlt
      · exact hy b hb

theorem sortByKeyDesc_pairwise (key : α → Int) (l : List α) :
    (sortByKeyDesc key l).Pairwise (fun a b => key b ≤ key a) := by
  induction l with
  | nil => simp [sortByKeyDesc]
  | cons x xs ih => exact pairwise_insertKeyDesc key x _ ih

theorem maxInstant_eq_none_iff (l : List Int) : maxInstant l = none ↔ l = [] := by
  cases l <;> simp [maxInstant]

theorem maxInstant_spec (l : List Int) (h : l ≠ []) :
    ∃ m, maxInstant l = some m ∧ m ∈ l ∧ ∀ t ∈ l, t ≤ m := by
  induction l with
  | nil => exact absurd rfl h
  | cons t ts ih =>
    by_cases hts : ts = []
    · subst hts
      exact ⟨t, rfl, List.mem_singleton.mpr rfl, by simp⟩
    · rcases ih hts with ⟨m, hm, hmem, hub⟩
      refine ⟨max t m, ?_, ?_, ?_⟩
      · simp [maxInstant, hm]
      · rcases le_total t m with hle | hle
        · exact List.mem_cons_of_mem t (by simpa [max_eq_right hle] using hmem)
        · simp [max_eq_left hle]
      · intro u hu
        rcases List.mem_cons.mp hu with hu | hu
        · exact hu ▸ le_max_left t m
        · exact le_trans (hub u hu) (le_max_right t m)

theorem parseReading_ok_issues {body : List (String × JVal)} {v : ValidReading}
    (h : parseReading body = Except.ok v) : readingIssues body = [] := by
  by_contra hne
  simp [parseReading, hne] at h

theorem parseReading_ok_val {body : List (String × JVal)} {v : ValidReading}
    (h : parseReading body = Except.ok v) : v = extractReading body := by
  have hnil := parseReading_ok_issues h
  simp [parseReading, hnil] at h
  exact h.symm

theorem readingIssues_chunks_nil {body : List (String × JVal)}
    (h : readingIssues body = []) :
    wallIdIssues (lookupField body "wall_id") = []
    ∧ deviceCountIssues (lookupField body "device_count") = []
    ∧ timestampIssues (lookupField body "timestamp") = []
    ∧ receivedAtIssues (lookupField body "received_at") = [] := by
  simp only [readingIssues, List.append_eq_nil] at h
  obtain ⟨⟨⟨⟨⟨⟨h1, h2⟩, h3⟩, h4⟩, h5⟩, h6⟩, h7⟩ := h
  exact ⟨h1, h2, h3, h7⟩

theorem mem_optField {k : String} {o : Option JVal} {kv : String × JVal}
    (h : kv ∈ optField k o) : kv.1 = k := by
  cases o with
  | none => simp [optField] at h
  | some v =>
    simp only [optField, List.mem_singleton] at h
    simp [h]

/-- A membership decomposition for the filter component of the builder. -/
theorem matchesFilter_true_iff (f : MongoFilter) (r : StoredReading) :
    matchesFilter f r = true ↔
      (∀ w, f.wall_id = some w → r.wall_id = w)
      ∧ (∀ a, f.ts_gte = some a → a ≤ r.server_timestamp)
      ∧ (∀ b, f.ts_lte = some b → r.server_timestamp ≤ b) := by
  rcases f with ⟨fw, fa, fb⟩
  simp only [matchesFilter, Bool.and_eq_true]
  cases fw <;> cases fa <;> cases fb <;>
    simp [beq_iff_eq, decide_eq_true_eq, and_assoc]

/-- A row of an executed read comes from the log and matches the filter. -/
theorem mem_executeFind {log : List StoredReading} {f : MongoFilter}
    {lim : Int} {r : StoredReading} (h : r ∈ executeFind log f lim) :
    r ∈ log ∧ matchesFilter f r = true := by
  simp only [executeFind] at h
  have hmem : r ∈ sortByKeyDesc (fun r => r.server_timestamp)
      (log.filter (fun r => matchesFilter f r)) := by
    split at h
    · exact h
    · exact List.mem_of_mem_take h
  exact List.mem_filter.mp ((mem_sortByKeyDesc _ _ r).mp hmem)

/-! Concrete inputs used by counterexamples and witnesses. -/

/-- A reading of wall "A" used in concrete instances. -/
def readingA : StoredReading := ⟨"A", 1, 1, none, none, none, none, 10, 10⟩

/-- Bulk reading number `i` for the oversized-limit counterexample. -/
def mkBulkReading (i : Nat) : StoredReading :=
  ⟨"W", 0, 1, none, none, none, none, (i : Int), (i : Int)⟩

/-- A log of 1001 readings. -/
def bulkLog : List StoredReading := (List.range 1001).map mkBulkReading

/-! Claim theorems. -/

/-- C1 (counterexample): the claim says the executed read returns at most
`limit` rows when present and that the builder enforces the [1,1000]
ceiling for every value it receives, including bypassed values such as 0 or
1001. Neither holds: with `limit = 1001` the read returns 1001 rows,
exceeding the claimed ceiling, and with `limit = 0` the driver disables the
bound entirely and the read returns all 1001 rows instead of at most 0. -/
theorem c1_counterexample :
    (getSensorData ⟨none, none, none, some 1001⟩ bulkLog).length = 1001
    ∧ ¬ ((1001 : Nat) ≤ 1000)
    ∧ (getSensorData ⟨none, none, none, some 0⟩ bulkLog).length = 1001
    ∧ ¬ ((1001 : Nat) ≤ 0) := by
  have hfilter : ∀ lim : Option Int,
      bulkLog.filter
          (fun r => matchesFilter (buildQuery ⟨none, none, none, lim⟩) r)
        = bulkLog :=
    fun lim => List.filter_eq_self.mpr (fun a _ => rfl)
  have hlen : bulkLog.length = 1001 := by simp [bulkLog]
  refine ⟨?_, by decide, ?_, by decide⟩
  · simp only [getSensorData, executeFind, hfilter]
    rw [if_neg (by decide : ¬ (effLimit (some 1001) = 0))]
    rw [List.length_take, length_sortByKeyDesc, hlen]
    decide
  · simp only [getSensorData, executeFind, hfilter]
    rw [if_pos (by decide : effLimit (some 0) = 0)]
    rw [length_sortByKeyDesc, hlen]

/-- C1 (amended): for every positive limit reaching the builder — which
covers every schema-validated value (1..1000) and the default 100 applied
when `limit` is absent — the executed read returns at most that many rows.
The builder performs no clamping of its own: a present limit is passed to
the driver verbatim, so a bypassed out-of-range value such as 1001 caps the
read at 1001 rows and a bypassed 0 disables the bound entirely, the read
then returning every matching row. -/
theorem c1_effective_limit :
    (∀ (log : List StoredReading) (f : MongoFilter) (l : Int), 0 < l →
        (executeFind log f l).length ≤ l.toNat)
    ∧ (∀ (log : List StoredReading) (q : ValidQuery), q.limit = none →
        (getSensorData q log).length ≤ 100)
    ∧ (∀ (log : List StoredReading) (q : ValidQuery) (l : Int),
        q.limit = some l → 1 ≤ l → (getSensorData q log).length ≤ l.toNat)
    ∧ (∀ (log : List StoredReading) (f : MongoFilter),
        executeFind log f 0
          = sortByKeyDesc (fun r => r.server_timestamp)
              (log.filter (fun r => matchesFilter f r)))
    ∧ (∀ l : Int, effLimit (some l) = l) := by
  have key : ∀ (log : List StoredReading) (f : MongoFilter) (l : Int), 0 < l →
      (executeFind log f l).length ≤ l.toNat := by
    intro log f l hl
    simp only [executeFind]
    rw [if_neg (by omega : ¬ l = 0)]
    refine le_trans (List.length_take_le _ _) ?_
    omega
  refine ⟨key, ?_, ?_, ?_, fun l => rfl⟩
  · intro log q hq
    have h := key log (buildQuery q) 100 (by decide)
    simp only [getSensorData, hq, effLimit, Option.getD]
    exact h
  · intro log q l hq h1
    have h := key log (buildQuery q) l (by omega)
    simp only [getSensorData, hq, effLimit, Option.getD]
    exact h
  · intro log f
    simp only [executeFind, if_pos]

/-- C1 (witness): a validated limit of 5 over a singleton log caps the read
at 5 rows. -/
theorem c1_witness :
    (getSensorData ⟨none, none, none, some 5⟩ [readingA]).length
      ≤ (5 : Int).toNat :=
  c1_effective_limit.2.2.1 [readingA] ⟨none, none, none, some 5⟩ 5 rfl
    (by decide)

/-- C4 (counterexample): the claim says a present `wall_id` always becomes
an equality filter, including the empty string. It does not: `if (wall_id)`
is a JS truthiness test, so a present empty `wall_id` adds no constraint and
the query returns a reading whose `wall_id` is "A", not "". -/
theorem c4_counterexample :
    getSensorData ⟨some "", none, none, none⟩ [readingA] = [readingA]
    ∧ readingA.wall_id ≠ "" := by decide

/-- C4 (amended): for every present nonempty `wall_id` string the built
filter restricts every returned row to exactly that `wall_id`; a present
empty `wall_id` string is treated as absent and contributes no filter. -/
theorem c4_wall_filter :
    (∀ q log w r, q.wall_id = some w → w ≠ "" →
        r ∈ getSensorData q log → r.wall_id = w)
    ∧ (∀ st et lim, buildQuery ⟨some "", st, et, lim⟩
        = { wall_id := none, ts_gte := st, ts_lte := et }) := by
  constructor
  · intro q log w r hw hne hr
    have hm := (mem_executeFind hr).2
    have hfw : (buildQuery q).wall_id = some w := by
      simp [buildQuery, hw, hne]
    exact ((matchesFilter_true_iff _ r).mp hm).1 w hfw
  · intro st et lim
    simp [buildQuery]

/-- C4 (witness): instantiates the amended claim at `wall_id = "A"` over a
singleton log. -/
theorem c4_witness : readingA.wall_id = "A" :=
  c4_wall_filter.1 ⟨some "A", none, none, none⟩ [readingA] "A" readingA rfl
    (by decide) (by decide)

/-- C5: `start_time` contributes an inclusive lower bound and `end_time` an
inclusive upper bound on `server_timestamp`; with `start_time = end_time = T`
the filter matches exactly the readings stamped `T` (and with room in the
limit the read returns exactly those readings); an inverted range returns
zero rows rather than an error. -/
theorem c5_time_range_filters :
    (∀ q log r, r ∈ getSensorData q log →
        (∀ a, q.start_time = some a → a ≤ r.server_timestamp)
        ∧ (∀ b, q.end_time = some b → r.server_timestamp ≤ b))
    ∧ (∀ (T lim : Int) (wq : Option String) (r : StoredReading), wq = none →
        (matchesFilter (buildQuery ⟨wq, some T, some T, some lim⟩) r = true
          ↔ r.server_timestamp = T))
    ∧ (∀ log (T : Int) lim r,
        (log.filter
            (fun r => matchesFilter (buildQuery ⟨none, some T, some T, lim⟩) r)).length
            ≤ (effLimit lim).toNat →
        (r ∈ getSensorData ⟨none, some T, some T, lim⟩ log
          ↔ r ∈ log ∧ r.server_timestamp = T))
    ∧ (∀ q log a b, q.start_time = some a → q.end_time = some b → b < a →
        getSensorData q log = []) := by
  have hiff : ∀ (T lim : Int) (r : StoredReading),
      matchesFilter (buildQuery ⟨none, some T, some T, some lim⟩) r = true
        ↔ r.server_timestamp = T := by
    intro T lim r
    simp only [buildQuery, matchesFilter, Bool.and_eq_true, decide_eq_true_eq]
    constructor
    · rintro ⟨⟨_, h1⟩, h2⟩
      exact le_antisymm h2 h1
    · rintro rfl
      exact ⟨⟨trivial, le_refl _⟩, le_refl _⟩
  refine ⟨?_, ?_, ?_, ?_⟩
  · intro q log r hr
    have hm := (matchesFilter_true_iff _ r).mp (mem_executeFind hr).2
    exact ⟨fun a ha => hm.2.1 a (by simpa [buildQuery] using ha),
      fun b hb => hm.2.2 b (by simpa [buildQuery] using hb)⟩
  · intro T lim wq r hwq
    subst hwq
    exact hiff T lim r
  · intro log T lim r hroom
    have hmemiff : r ∈ sortByKeyDesc (fun x => x.server_timestamp)
        (log.filter
          (fun x => matchesFilter (buildQuery ⟨none, some T, some T, lim⟩) x))
        ↔ r ∈ log ∧ r.server_timestamp = T := by
      rw [mem_sortByKeyDesc, List.mem_filter]
      constructor
      · rintro ⟨hmem, hmatch⟩
        refine ⟨hmem, ?_⟩
        have := (matchesFilter_true_iff _ r).mp hmatch
        exact le_antisymm (this.2.2 T rfl) (this.2.1 T rfl)
      · rintro ⟨hmem, hts⟩
        refine ⟨hmem, (matchesFilter_true_iff _ r).mpr ?_⟩
        refine ⟨fun w hw => by simp [buildQuery] at hw, ?_, ?_⟩
        · intro a ha
          simp only [buildQuery] at ha
          cases ha
          exact le_of_eq hts.symm
        · intro b hb
          simp only [buildQuery] at hb
          cases hb
          exact le_of_eq hts
    simp only [getSensorData, executeFind]
    split
    · exact hmemiff
    · rw [List.take_of_length_le]
      · exact hmemiff
      · rw [length_sortByKeyDesc]
        refine le_trans hroom ?_
        omega
  · intro q log a b ha hb hba
    have hnil : log.filter (fun r => matchesFilter (buildQuery q) r) = [] := by
      rw [List.filter_eq_nil_iff]
      intro r _
      intro hmatch
      have hm := (matchesFilter_true_iff _ r).mp hmatch
      have h1 := hm.2.1 a (by simp [buildQuery, ha])
      have h2 := hm.2.2 b (by simp [buildQuery, hb])
      omega
    simp only [getSensorData, executeFind, hnil, sortByKeyDesc]
    split <;> simp

/-- C5 (witness): instantiates the inclusive point range and the inverted
range over a singleton log. -/
theorem c5_witness :
    getSensorData ⟨none, some 20, some 10, none⟩ [readingA] = [] :=
  c5_time_range_filters.2.2.2 ⟨none, some 20, some 10, none⟩ [readingA]
    20 10 rfl rfl (by decide)

/-- C3: the walls summary has exactly one row per distinct `wall_id` of the
log; each row's `latest_reading` is the maximum `server_timestamp` over that
wall's readings and its `device_count` is that of the wall's last-inserted
reading; the rows are sorted descending by `latest_reading`. -/
theorem c3_walls_summary (log : List StoredReading) :
    ((wallsAggregate log).map (fun row => row.wall_id)).Nodup
    ∧ (∀ w, w ∈ (wallsAggregate log).map (fun row => row.wall_id)
        ↔ w ∈ log.map (fun r => r.wall_id))
    ∧ (∀ row ∈ wallsAggregate log,
        row.latest_reading
            ∈ (wallReadings log row.wall_id).map (fun r => r.server_timestamp)
        ∧ (∀ t ∈ (wallReadings log row.wall_id).map (fun r => r.server_timestamp),
            t ≤ row.latest_reading)
        ∧ some row.device_count
            = ((wallReadings log row.wall_id).getLast?).map (fun r => r.device_count))
    ∧ (wallsAggregate log).Pairwise
        (fun a b => b.latest_reading ≤ a.latest_reading) := by
  have hperm : (wallsAggregate log).Perm
      (((log.map (fun r => r.wall_id)).dedup).map (wallRow log)) :=
    sortByKeyDesc_perm _ _
  have hcomp : (fun row => row.wall_id) ∘ (wallRow log) = id :=
    funext fun w => rfl
  have hmapid :
      ((((log.map (fun r => r.wall_id)).dedup).map (wallRow log)).map
          (fun row => row.wall_id))
        = (log.map (fun r => r.wall_id)).dedup := by
    rw [List.map_map, hcomp, List.map_id]
  have hpermmap : ((wallsAggregate log).map (fun row => row.wall_id)).Perm
      ((log.map (fun r => r.wall_id)).dedup) :=
    hmapid ▸ hperm.map (fun row => row.wall_id)
  refine ⟨?_, ?_, ?_, ?_⟩
  · exact hpermmap.symm.nodup (List.nodup_dedup _)
  · intro w
    rw [hpermmap.mem_iff, List.mem_dedup]
  · intro row hrow
    have hrow2 := hperm.mem_iff.mp hrow
    rcases List.mem_map.mp hrow2 with ⟨w, hw, hrw⟩
    have hwlog : w ∈ log.map (fun r => r.wall_id) := List.mem_dedup.mp hw
    rcases List.mem_map.mp hwlog with ⟨r0, hr0, hr0w⟩
    have hr0mem : r0 ∈ wallReadings log w := by
      rw [wallReadings, List.mem_filter]
      exact ⟨hr0, beq_iff_eq.mpr hr0w⟩
    have hne : wallReadings log w ≠ [] := List.ne_nil_of_mem hr0mem
    have hnemap :
        (wallReadings log w).map (fun r => r.server_timestamp) ≠ [] := by
      simpa [List.map_eq_nil_iff] using hne
    rcases maxInstant_spec _ hnemap with ⟨m, hm, hmmem, hub⟩
    have hlast :
        ∃ rl, (wallReadings log w).getLast? = some rl :=
      Option.isSome_iff_exists.mp (List.getLast?_isSome.mpr hne)
    rcases hlast with ⟨rl, hrl⟩
    subst hrw
    have hwid : (wallRow log w).wall_id = w := rfl
    rw [hwid]
    have hlatest : (wallRow log w).latest_reading = m := by
      simp [wallRow, hm]
    have hdc : (wallRow log w).device_count = rl.device_count := by
      simp [wallRow, hrl]
    rw [hlatest, hdc, hrl]
    exact ⟨hmmem, hub, rfl⟩
  · exact sortByKeyDesc_pairwise _ _

/-- First example reading of wall "A" (`device_count` 3, stamped 10). -/
def exLogA1 : StoredReading := ⟨"A", 3, 1, none, none, none, none, 10, 10⟩

/-- Second example reading of wall "A" (`device_count` 5, stamped 20). -/
def exLogA2 : StoredReading := ⟨"A", 5, 2, none, none, none, none, 20, 20⟩

/-- Example reading of wall "B" (`device_count` 7, stamped 15). -/
def exLogB1 : StoredReading := ⟨"B", 7, 3, none, none, none, none, 15, 15⟩

/-- The example log of the walls-summary scenario. -/
def exLog : List StoredReading := [exLogA1, exLogA2, exLogB1]

/-- C3 (witness): instantiates the summary properties at wall "A" of the
example log, whose summary row pairs the maximum stamp 20 with the
last-inserted `device_count` 5. -/
theorem c3_witness :
    (⟨"A", 20, 5⟩ : WallRow).latest_reading
        ∈ (wallReadings exLog (⟨"A", 20, 5⟩ : WallRow).wall_id).map
            (fun r => r.server_timestamp)
    ∧ (∀ t ∈ (wallReadings exLog (⟨"A", 20, 5⟩ : WallRow).wall_id).map
            (fun r => r.server_timestamp),
        t ≤ (⟨"A", 20, 5⟩ : WallRow).latest_reading)
    ∧ some (⟨"A", 20, 5⟩ : WallRow).device_count
        = ((wallReadings exLog (⟨"A", 20, 5⟩ : WallRow).wall_id).getLast?).map
            (fun r => r.device_count) :=
  (c3_walls_summary exLog).2.2.1 ⟨"A", 20, 5⟩ (by decide)

/-- C2: a reading with negative `device_count`, empty `wall_id`, or
non-positive `timestamp` is rejected with a 400 carrying per-field details,
and the reading log is left unchanged. -/
theorem c2_invalid_reading_rejected (body : List (String × JVal))
    (now1 now2 : Int) (ins : Except String Nat) (log : List StoredReading)
    (h : (∃ n : Rat, lookupField body "device_count" = some (JVal.num n) ∧ n < 0)
       ∨ lookupField body "wall_id" = some (JVal.str "")
       ∨ (∃ t : Rat, lookupField body "timestamp" = some (JVal.num t) ∧ t ≤ 0)) :
    (postSensorData body now1 now2 ins log).1 = PostResp.badRequest (readingIssues body)
    ∧ readingIssues body ≠ []
    ∧ (postSensorData body now1 now2 ins log).1.status = 400
    ∧ (postSensorData body now1 now2 ins log).2 = log := by
  have hne : readingIssues body ≠ [] := by
    intro hnil
    have hc := readingIssues_chunks_nil hnil
    rcases h with ⟨n, hl, hn⟩ | hl | ⟨t, hl, ht⟩
    · have h2 := hc.2.1
      rw [hl] at h2
      have h0 : ¬ ((0 : Rat) ≤ n) := not_le.mpr hn
      simp [deviceCountIssues, h0, List.append_eq_nil] at h2
    · have h1 := hc.1
      rw [hl] at h1
      have h0 : ¬ (1 ≤ ("" : String).length) := by decide
      simp [wallIdIssues, h0] at h1
    · have h3 := hc.2.2.1
      rw [hl] at h3
      have h0 : ¬ ((0 : Rat) < t) := not_lt.mpr ht
      simp [timestampIssues, h0, List.append_eq_nil] at h3
  have hp : parseReading body = Except.error (readingIssues body) := by
    simp [parseReading, hne]
  refine ⟨?_, hne, ?_, ?_⟩ <;> simp [postSensorData, hp, PostResp.status]

/-- Body with a negative `device_count`, used to instantiate C2. -/
def negCountBody : List (String × JVal) :=
  [("wall_id", JVal.str "W"), ("device_count", JVal.num (-1)),
   ("timestamp", JVal.num 5)]

/-- C2 (witness): a reading with `device_count = -1` is rejected with a 400
and writes nothing. -/
theorem c2_witness :
    (postSensorData negCountBody 0 0 (Except.ok 1) []).1
        = PostResp.badRequest (readingIssues negCountBody)
    ∧ readingIssues negCountBody ≠ []
    ∧ (postSensorData negCountBody 0 0 (Except.ok 1) []).1.status = 400
    ∧ (postSensorData negCountBody 0 0 (Except.ok 1) []).2 = [] :=
  c2_invalid_reading_rejected negCountBody 0 0 (Except.ok 1) []
    (Or.inl ⟨-1, by decide, by decide⟩)

/-- Valid body that also tries to supply both stamps itself. -/
def stampedBody : List (String × JVal) :=
  [("wall_id", JVal.str "W"), ("device_count", JVal.num 2),
   ("timestamp", JVal.num 5), ("server_timestamp", JVal.num 999),
   ("created_at", JVal.num 888)]

/-- C6 (counterexample): the claim asserts the two stamps of a persisted
reading are always equal to each other, but the handler obtains them from
two separate `new Date()` calls; in an execution where the clock ticks
between the calls — here the calls return the instants 10 and 11 — the
persisted stamps differ. The system-generated part still holds in that very
execution: the caller supplied both stamp fields in the body and neither
survives. -/
theorem c6_counterexample :
    (postSensorData stampedBody 10 11 (Except.ok 7) []).2
        = [stampReading (extractReading stampedBody) 10 11]
    ∧ (stampReading (extractReading stampedBody) 10 11).server_timestamp = 10
    ∧ (stampReading (extractReading stampedBody) 10 11).created_at = 11
    ∧ (stampReading (extractReading stampedBody) 10 11).server_timestamp
        ≠ (stampReading (extractReading stampedBody) 10 11).created_at := by
  refine ⟨?_, rfl, rfl, by decide⟩
  have h : parseReading stampedBody = Except.ok (extractReading stampedBody) :=
    rfl
  simp [postSensorData, h]

/-- C6 (amended): every persisted reading carries system-generated stamps —
`server_timestamp` is the instant of the handler's first `new Date()` call
and `created_at` that of its second, and caller-supplied `server_timestamp`
or `created_at` fields in the body never reach the stored document; the two
stamps agree whenever the two clock reads return the same instant, but the
program does not force them equal. -/
theorem c6_system_stamps (body : List (String × JVal)) (v : ValidReading)
    (now1 now2 : Int) (id : Nat) (log : List StoredReading)
    (h : parseReading body = Except.ok v) :
    (postSensorData body now1 now2 (Except.ok id) log).2
        = log ++ [stampReading v now1 now2]
    ∧ (stampReading v now1 now2).server_timestamp = now1
    ∧ (stampReading v now1 now2).created_at = now2
    ∧ (now1 = now2 →
        (stampReading v now1 now2).server_timestamp
          = (stampReading v now1 now2).created_at) := by
  refine ⟨?_, rfl, rfl, fun he => he⟩
  simp [postSensorData, h]

/-- C6 (witness): even when the caller supplies `server_timestamp` and
`created_at`, the stored stamps are the system instants of the two clock
reads (both 42 here), and with the two reads coinciding the stamps are
equal. -/
theorem c6_witness :
    (postSensorData stampedBody 42 42 (Except.ok 7) []).2
        = [] ++ [stampReading (extractReading stampedBody) 42 42]
    ∧ (stampReading (extractReading stampedBody) 42 42).server_timestamp = 42
    ∧ (stampReading (extractReading stampedBody) 42 42).created_at = 42
    ∧ ((42 : Int) = 42 →
        (stampReading (extractReading stampedBody) 42 42).server_timestamp
          = (stampReading (extractReading stampedBody) 42 42).created_at) :=
  c6_system_stamps stampedBody (extractReading stampedBody) 42 42 7 [] rfl

/-- The complete set of keys a persisted document may carry. -/
def schemaDocKeys : List String :=
  ["wall_id", "device_count", "timestamp", "gateway_id", "rssi", "snr",
   "received_at", "server_timestamp", "created_at"]

theorem storedDoc_keys_sub (r : StoredReading) :
    ∀ kv ∈ storedDoc r, kv.1 ∈ schemaDocKeys := by
  intro kv hkv
  simp only [storedDoc, List.mem_append, List.mem_cons,
    List.not_mem_nil, or_false] at hkv
  rcases hkv with ((((h | h) | h) | h) | h) | h
  · rcases h with h | h | h <;> rw [h] <;> simp [schemaDocKeys]
  · rw [mem_optField h]; decide
  · rw [mem_optField h]; decide
  · rw [mem_optField h]; decide
  · rw [mem_optField h]; decide
  · rcases h with h | h <;> rw [h] <;> simp [schemaDocKeys]

/-- C7: a persisted document carries only the schema-declared keys (plus the
two system stamps); any unrecognized field of the inbound body is dropped by
normalization and cannot be found in the persisted document. -/
theorem c7_unknown_fields_never_persisted (body : List (String × JVal))
    (v : ValidReading) (now1 now2 : Int)
    (h : parseReading body = Except.ok v) :
    (∀ kv ∈ storedDoc (stampReading v now1 now2), kv.1 ∈ schemaDocKeys)
    ∧ (∀ k, k ∉ schemaDocKeys →
        lookupField (storedDoc (stampReading v now1 now2)) k = none) := by
  refine ⟨storedDoc_keys_sub _, ?_⟩
  intro k hk
  rw [lookupField, Option.map_eq_none', List.find?_eq_none]
  intro kv hkv
  simp only [decide_eq_true_eq]
  intro heq
  exact hk (heq ▸ storedDoc_keys_sub _ kv hkv)

/-- Valid body carrying an unrecognized field. -/
def extraFieldBody : List (String × JVal) :=
  [("wall_id", JVal.str "W"), ("device_count", JVal.num 2),
   ("timestamp", JVal.num 5), ("intruder", JVal.str "leak me")]

/-- C7 (witness): the unrecognized field of `extraFieldBody` is absent from
the persisted document. -/
theorem c7_witness :
    lookupField
        (storedDoc (stampReading (extractReading extraFieldBody) 42 43))
        "intruder" = none :=
  (c7_unknown_fields_never_persisted extraFieldBody
      (extractReading extraFieldBody) 42 43 rfl).2 "intruder" (by decide)

/-- C8 (counterexample): the claim says limit validation fails for every
string that is not an integer. It does not: "5abc" is not an integer
numeral, yet `parseInt("5abc", 10)` yields 5 and validation accepts it. -/
theorem c8_counterexample :
    parseLimitField (some "5abc") = some (some 5)
    ∧ decimalIntString "5abc" = false := by
  exact ⟨by decide, by decide⟩

/-- C8 (amended): a present limit string is accepted exactly when its
longest leading decimal-integer prefix (JS `parseInt` with radix 10) exists
and lies in [1,1000], and the accepted value is that prefix — so strings
with trailing garbage such as "5abc" pass; "0" and "1001" fail while "1"
and "1000" pass; an absent limit passes validation with no default applied
at the schema stage. -/
theorem c8_limit_validation :
    parseLimitField none = some none
    ∧ (∀ (s : String) (n : Int), parseLimitField (some s) = some (some n)
        ↔ jsParseInt s = some n ∧ 1 ≤ n ∧ n ≤ 1000)
    ∧ parseLimitField (some "0") = none
    ∧ parseLimitField (some "1001") = none
    ∧ parseLimitField (some "1") = some (some 1)
    ∧ parseLimitField (some "1000") = some (some 1000) := by
  refine ⟨rfl, ?_, by decide, by decide, by decide, by decide⟩
  intro s n
  cases hj : jsParseInt s with
  | none => simp [parseLimitField, hj]
  | some m =>
    simp only [parseLimitField, hj]
    by_cases hm : 1 ≤ m ∧ m ≤ 1000
    · rw [if_pos hm]
      constructor
      · intro h'
        have hmn : m = n := by
          injection h' with h''
          injection h''
        subst hmn
        exact ⟨rfl, hm.1, hm.2⟩
      · rintro ⟨hmn, _, _⟩
        injection hmn with hmn
        subst hmn
        rfl
    · rw [if_neg hm]
      constructor
      · intro h'
        cases h'
      · rintro ⟨hmn, h1, h2⟩
        injection hmn with hmn
        subst hmn
        exact absurd ⟨h1, h2⟩ hm

/-- C9 (counterexample): the claim says no user-visible failure response
ever contains raw driver error text. The health check does: its 503 body
forwards the underlying error message verbatim in its `error` field. -/
theorem c9_counterexample :
    (healthHandler (Except.error
        "MongoNetworkError: connect ECONNREFUSED 127.0.0.1:27017")).1 = 503
    ∧ ((healthHandler (Except.error
        "MongoNetworkError: connect ECONNREFUSED 127.0.0.1:27017")).2).error
        = some "MongoNetworkError: connect ECONNREFUSED 127.0.0.1:27017" :=
  ⟨rfl, rfl⟩

/-- C9 (amended): the three sensor-data handlers surface every storage
failure as structured `{success:false, error:<fixed short message>}` bodies,
independent of the underlying driver error; the health check instead
answers 503 with the underlying error message forwarded verbatim. -/
theorem c9_storage_failure_messages :
    (∀ (body : List (String × JVal)) (now1 now2 : Int)
        (log : List StoredReading) (e : String) (b : ErrorBody),
        (postSensorData body now1 now2 (Except.error e) log).1
            = PostResp.storageError b →
        b = ⟨false, "Failed to save sensor data"⟩)
    ∧ (∀ (q : ValidQuery) (log : List StoredReading) (e : String),
        getSensorDataResp q log (Except.error e)
          = Except.error ⟨false, "Failed to query sensor data"⟩)
    ∧ (∀ (log : List StoredReading) (e : String),
        getWallsResp log (Except.error e)
          = Except.error ⟨false, "Failed to get walls data"⟩)
    ∧ (∀ e : String, (healthHandler (Except.error e)).1 = 503
        ∧ ((healthHandler (Except.error e)).2).error = some e) := by
  refine ⟨?_, fun q log e => rfl, fun log e => rfl, fun e => ⟨rfl, rfl⟩⟩
  intro body now1 now2 log e b h
  cases hp : parseReading body with
  | error issues => simp [postSensorData, hp] at h
  | ok v =>
    simp only [postSensorData, hp] at h
    exact (PostResp.storageError.injEq _ _).mp h.symm

/-- Valid body used to instantiate the storage-failure branch. -/
def okBody : List (String × JVal) :=
  [("wall_id", JVal.str "W"), ("device_count", JVal.num 2),
   ("timestamp", JVal.num 5)]

/-- C9 (witness): a concrete failed insert is answered with the fixed
message, whatever the driver said. -/
theorem c9_witness :
    (⟨false, "Failed to save sensor data"⟩ : ErrorBody)
      = ⟨false, "Failed to save sensor data"⟩ :=
  c9_storage_failure_messages.1 okBody 0 0 [] "driver blew up"
    ⟨false, "Failed to save sensor data"⟩ (by rfl)

/-- C10: a present `received_at` passes ingestion validation only as an
integer strictly greater than 0 — a zero, negative, or non-integer value is
rejected with a 400 and nothing is written — and a reading that validates
with `received_at` present necessarily carried a positive integer there. -/
theorem c10_received_at_validation (body : List (String × JVal))
    (now1 now2 : Int) (ins : Except String Nat) (log : List StoredReading) :
    (∀ n : Rat, lookupField body "received_at" = some (JVal.num n) →
        (n ≤ 0 ∨ ¬ (n.isInt = true)) →
        (postSensorData body now1 now2 ins log).1
            = PostResp.badRequest (readingIssues body)
        ∧ readingIssues body ≠ []
        ∧ (postSensorData body now1 now2 ins log).1.status = 400
        ∧ (postSensorData body now1 now2 ins log).2 = log)
    ∧ (∀ v : ValidReading, parseReading body = Except.ok v →
        ∀ jv, lookupField body "received_at" = some jv →
          ∃ n : Rat, jv = JVal.num n ∧ n.isInt = true ∧ 0 < n) := by
  constructor
  · intro n hl hbad
    have hne : readingIssues body ≠ [] := by
      intro hnil
      have hc := (readingIssues_chunks_nil hnil).2.2.2
      rw [hl] at hc
      rcases hbad with hle | hint
      · have h0 : ¬ ((0 : Rat) < n) := not_lt.mpr hle
        simp [receivedAtIssues, h0, List.append_eq_nil] at hc
      · simp [receivedAtIssues, hint, List.append_eq_nil] at hc
    have hp : parseReading body = Except.error (readingIssues body) := by
      simp [parseReading, hne]
    refine ⟨?_, hne, ?_, ?_⟩ <;> simp [postSensorData, hp, PostResp.status]
  · intro v hv jv hl
    have hc := (readingIssues_chunks_nil (parseReading_ok_issues hv)).2.2.2
    rw [hl] at hc
    cases jv with
    | num n =>
      refine ⟨n, rfl, ?_, ?_⟩
      · by_contra hint
        simp [receivedAtIssues, hint, List.append_eq_nil] at hc
      · by_contra hpos
        simp [receivedAtIssues, hpos, List.append_eq_nil] at hc
    | str s => simp [receivedAtIssues] at hc
    | bool b => simp [receivedAtIssues] at hc
    | null => simp [receivedAtIssues] at hc

/-- Valid-but-for-`received_at` body with `received_at = 0`. -/
def zeroRecvBody : List (String × JVal) :=
  [("wall_id", JVal.str "W"), ("device_count", JVal.num 2),
   ("timestamp", JVal.num 5), ("received_at", JVal.num 0)]

/-- C10 (witness): a reading with `received_at = 0` is rejected with a 400
and writes nothing. -/
theorem c10_witness :
    (postSensorData zeroRecvBody 0 0 (Except.ok 1) []).1
        = PostResp.badRequest (readingIssues zeroRecvBody)
    ∧ readingIssues zeroRecvBody ≠ []
    ∧ (postSensorData zeroRecvBody 0 0 (Except.ok 1) []).1.status = 400
    ∧ (postSensorData zeroRecvBody 0 0 (Except.ok 1) []).2 = [] :=
  (c10_received_at_validation zeroRecvBody 0 0 (Except.ok 1) []).1 0
    (by decide) (Or.inl (by decide))

end CragCrowd
